import Mathlib

/-!
Verification of `powo_syno.py`: a pipeline that, for each species name in an
input table, resolves an IPNI identifier via a registry search API, builds a
POWO taxon URL, scrapes the synonym list from that page, and writes one output
row per input row.

Network I/O is modelled by oracles: each HTTP request yields an `HttpOutcome`
(either a network-level error, or a response with a status code and an already
decoded body).  The pure post-response processing of the two fetch functions
and the whole driver loop are translated directly from the source.
-/

namespace PowoSyno

/-- A decoded JSON value as handed back by `response.json()` in Python.
An `obj` represents a Python `dict` produced by JSON decoding: keys are
distinct and in insertion order. -/
inductive Json where
  | null : Json
  | bool : Bool → Json
  | num : Int → Json
  | str : String → Json
  | arr : List Json → Json
  | obj : List (String × Json) → Json

/-- Python truthiness of a decoded JSON value (`if data ...`, line 22). -/
def pyTruthy : Json → Bool
  | .null => false
  | .bool b => b
  | .num n => n != 0
  | .str s => s != ""
  | .arr xs => !xs.isEmpty
  | .obj kvs => !kvs.isEmpty

/-- Python substring containment `key in s` for strings. -/
def strContains (s key : String) : Bool :=
  (s.data.tails).any (fun t => key.data.isPrefixOf t)

/-- Whether `j` is the JSON string `key` under the Python `==` used by
membership tests on lists (values of other shapes never equal a string). -/
def isStrEq (j : Json) (key : String) : Bool :=
  match j with
  | .str s => s == key
  | _ => false

/-- Python `key in data` (line 22): defined for dicts, lists and strings;
a `TypeError` (modelled as `.error`) for other values. -/
def pyIn (key : String) : Json → Except Unit Bool
  | .obj kvs => .ok (kvs.any (fun p => p.1 == key))
  | .arr xs => .ok (xs.any (fun j => isStrEq j key))
  | .str s => .ok (strContains s key)
  | _ => .error ()

/-- Python `data[key]` for a string key: dict lookup (raising `KeyError`,
modelled as `.error`, when missing); a `TypeError` for non-dict values. -/
def pyGetKey (j : Json) (key : String) : Except Unit Json :=
  match j with
  | .obj kvs =>
    match kvs.lookup key with
    | some v => .ok v
    | none => .error ()
  | _ => .error ()

/-- Python `len(v)` (line 22): defined for strings, lists and dicts;
a `TypeError` for other values. -/
def pyLen : Json → Except Unit Nat
  | .str s => .ok s.length
  | .arr xs => .ok xs.length
  | .obj kvs => .ok kvs.length
  | _ => .error ()

/-- Python `v[0]` (line 23): first element of a list (`IndexError` when
empty), one-character string for a non-empty string, `TypeError` otherwise. -/
def pyIndex0 : Json → Except Unit Json
  | .arr (x :: _) => .ok x
  | .arr [] => .error ()
  | .str s => if s == "" then .error () else .ok (.str (String.singleton s.front))
  | _ => .error ()

/-- Python `s.split(sep)` for a one-character separator: the accumulator
holds the current field in reverse; splitting the empty string yields one
empty field, exactly as in Python. -/
def pySplitAux (sep : Char) : List Char → List Char → List String
  | [], cur => [String.mk cur.reverse]
  | c :: cs, cur =>
    if c == sep then String.mk cur.reverse :: pySplitAux sep cs []
    else pySplitAux sep cs (c :: cur)

/-- Python `s.split(":")`. -/
def pySplitColon (s : String) : List String :=
  pySplitAux ':' s.data []

/-- Python `s.split(":")[-1]` (line 23); the split result is never empty,
so the default of `getLastD` is unreachable. -/
def splitLastColon (s : String) : String :=
  (pySplitColon s).getLastD ""

/-- The body of `fetch_ipni_id` after a successful request and JSON decode
(lines 22-26 of the source): the `if data and "results" in data and
len(data["results"]) > 0` chain with Python short-circuiting, where `.error`
means an exception was raised (to be caught by the enclosing `try`). -/
def ipniBody (data : Json) : Except Unit (Option String) :=
  if pyTruthy data then
    match pyIn "results" data with
    | .error e => .error e
    | .ok hasRes =>
      if hasRes then
        match pyGetKey data "results" with
        | .error e => .error e
        | .ok res =>
          match pyLen res with
          | .error e => .error e
          | .ok n =>
            if n > 0 then
              match pyGetKey data "results" with
              | .error e => .error e
              | .ok res2 =>
                match pyIndex0 res2 with
                | .error e => .error e
                | .ok first =>
                  match pyGetKey first "id" with
                  | .error e => .error e
                  | .ok idv =>
                    match idv with
                    | .str s => .ok (some (splitLastColon s))
                    | _ => .error ()
            else .ok none
      else .ok none
  else .ok none

/-- Outcome of one HTTP request, with the body already decoded as `β`:
either a network-level exception during `requests.get`, or a response with
a status code and body. -/
inductive HttpOutcome (β : Type) where
  | netError : HttpOutcome β
  | response : Nat → β → HttpOutcome β

/-- Whether `response.raise_for_status()` raises (4xx and 5xx codes). -/
def httpFails (status : Nat) : Bool :=
  400 ≤ status && status < 600

/-- Function `fetch_ipni_id` (lines 9-29): the response body is `none` when
`response.json()` raises (malformed JSON), `some data` otherwise.  Every
exception path is caught by the `try`/`except` and yields `none`. -/
def fetch_ipni_id (resp : HttpOutcome (Option Json)) : Option String :=
  match resp with
  | .netError => none
  | .response status body =>
    if httpFails status then none
    else
      match body with
      | none => none
      | some data =>
        match ipniBody data with
        | .ok r => r
        | .error _ => none

/-- A parsed HTML node as produced by `BeautifulSoup(html, "html.parser")`:
either a text node or an element with a tag name, attributes and children.
A whole document is a `List Html` (the children of the soup object). -/
inductive Html where
  | text : String → Html
  | elem : String → List (String × String) → List Html → Html

/-- The direct children (`tag.contents`) of a node. -/
def childrenOf : Html → List Html
  | .text _ => []
  | .elem _ _ c => c

/-- BeautifulSoup `Tag` truthiness: `Tag.__len__` is the number of contents,
so a tag with no contents is falsy; a `NavigableString` is falsy when empty.
This is what `if not synonyms_section:` and `if not synonyms_list:` test
once `find` has returned a non-`None` node. -/
def tagFalsy : Html → Bool
  | .text s => s == ""
  | .elem _ _ c => c.isEmpty

/-- The match predicate of `soup.find("section", id="synonyms")` (line 48). -/
def isSynSection : Html → Bool
  | .text _ => false
  | .elem t a _ => t == "section" && (a.lookup "id" == some "synonyms")

/-- Split a character list at whitespace characters, keeping empty fields
(they never match a non-empty class token). -/
def splitWsAux : List Char → List Char → List String
  | [], cur => [String.mk cur.reverse]
  | c :: cs, cur =>
    if c.isWhitespace then String.mk cur.reverse :: splitWsAux cs []
    else splitWsAux cs (c :: cur)

/-- Split a string on whitespace. -/
def splitWs (s : String) : List String := splitWsAux s.data []

/-- Whether an attribute list carries a given token inside its `class`
attribute: BeautifulSoup splits the attribute on whitespace and matches
`class_=` against any one token. -/
def inClassAttr (a : List (String × String)) (cls : String) : Bool :=
  match a.lookup "class" with
  | none => false
  | some v => (splitWs v).contains cls

/-- The match predicate of `find("ul", class_="c-synonym-list")` (line 53). -/
def isSynUl : Html → Bool
  | .text _ => false
  | .elem t a _ => t == "ul" && inClassAttr a "c-synonym-list"

/-- The match predicate of `find_all("li")` (line 58). -/
def isLi : Html → Bool
  | .text _ => false
  | .elem t _ _ => t == "li"

/-- BeautifulSoup `find` over a list of nodes: first element (depth-first, document
order) satisfying `p`, descending into children, or `none`. -/
def findElemList (p : Html → Bool) : List Html → Option Html
  | [] => none
  | .text _ :: hs => findElemList p hs
  | .elem t a c :: hs =>
    if p (.elem t a c) then some (.elem t a c)
    else
      match findElemList p c with
      | some r => some r
      | none => findElemList p hs

/-- BeautifulSoup `find_all` over a list of nodes: every element satisfying `p`, in
document order (a matching element precedes its matching descendants). -/
def findAllList (p : Html → Bool) : List Html → List Html
  | [] => []
  | .text _ :: hs => findAllList p hs
  | .elem t a c :: hs =>
    (if p (.elem t a c) then [Html.elem t a c] else []) ++
      findAllList p c ++ findAllList p hs

/-- Concatenated text of a list of nodes, in document order. -/
def textOfList : List Html → String
  | [] => ""
  | .text s :: hs => s ++ textOfList hs
  | .elem _ _ c :: hs => textOfList c ++ textOfList hs

/-- Property `tag.text`: the concatenated text content of a node. -/
def textOfHtml (h : Html) : String := textOfList [h]

/-- All element nodes of a forest, in document order (used to state that a
document contains no element matching a predicate). -/
def allElems : List Html → List Html
  | [] => []
  | .text _ :: hs => allElems hs
  | .elem t a c :: hs => Html.elem t a c :: (allElems c ++ allElems hs)

/-- Python `s.strip()` (lines 58 and 78): drop whitespace from both ends. -/
def pyStrip (s : String) : String :=
  String.mk (((s.data.dropWhile Char.isWhitespace).reverse.dropWhile
    Char.isWhitespace).reverse)

/-- Function `fetch_synonyms_from_powo` (lines 32-62): the body is the parsed
document (BeautifulSoup itself raises on neither malformed nor empty HTML).
Every exception path is caught and yields `none`; a found-but-empty section
or list is falsy and also yields `none`. -/
def fetch_synonyms_from_powo (resp : HttpOutcome (List Html)) :
    Option (List String) :=
  match resp with
  | .netError => none
  | .response status doc =>
    if httpFails status then none
    else
      match findElemList isSynSection doc with
      | none => none
      | some sec =>
        if tagFalsy sec then none
        else
          match findElemList isSynUl (childrenOf sec) with
          | none => none
          | some ul =>
            if tagFalsy ul then none
            else
              some ((findAllList isLi (childrenOf ul)).map
                (fun li => pyStrip (textOfHtml li)))

/-- One output row, as appended to `results` (lines 85 and 94-98). -/
structure ResultRecord where
  species : String
  powo_url : String
  synonyms : String
deriving DecidableEq

/-- Observable trace of processing one input row: the record appended to
`results`, whether `fetch_synonyms_from_powo` was invoked, and how many
time units the row slept (`time.sleep(2)` at line 101, or none when the
`continue` at line 86 was taken). -/
structure RowTrace where
  record : ResultRecord
  extractorCalled : Bool
  sleepUnits : Nat
deriving DecidableEq

/-- The network, as oracles: the registry search response for a species
name (`requests.get` at line 17, body already JSON-decoded, `none` when
`response.json()` raises), and the POWO page response for a URL
(`requests.get` at line 41, body already parsed by BeautifulSoup). -/
structure NetworkEnv where
  registry : String → HttpOutcome (Option Json)
  powo : String → HttpOutcome (List Html)

/-- The POWO URL f-string of line 89. -/
def urlOf (ipni_id : String) : String :=
  "https://powo.science.kew.org/taxon/urn:lsid:ipni.org:names:" ++ ipni_id

/-- Python `"; ".join(synonyms) if synonyms else "None"` (line 97): both a
missing and an empty synonym list are falsy and give the sentinel. -/
def pyJoinSemi : List String → String
  | [] => ""
  | [x] => x
  | x :: y :: rest => x ++ "; " ++ pyJoinSemi (y :: rest)

/-- The `Synonyms` field of line 97. -/
def joinOrNone : Option (List String) → String
  | none => "None"
  | some [] => "None"
  | some (x :: rest) => pyJoinSemi (x :: rest)

/-- The row recorded at line 85 when `if not ipni_id:` is taken: sentinel
fields, no extractor call, no sleep (the `continue` skips line 101). -/
def notFoundTrace (species_name : String) : RowTrace :=
  { record := { species := species_name, powo_url := "Not Found",
                synonyms := "None" },
    extractorCalled := false, sleepUnits := 0 }

/-- One iteration of the loop body (lines 78-101).  `if not ipni_id:` is
Python truthiness: both `None` and the empty string take the sentinel
branch. -/
def processRow (env : NetworkEnv) (raw : String) : RowTrace :=
  let species_name := pyStrip raw
  match fetch_ipni_id (env.registry species_name) with
  | none => notFoundTrace species_name
  | some s =>
    if s == "" then notFoundTrace species_name
    else
      let synonyms := fetch_synonyms_from_powo (env.powo (urlOf s))
      { record := ⟨species_name, urlOf s, joinOrNone synonyms⟩,
        extractorCalled := true, sleepUnits := 2 }

/-- A row of the input table: the cells keyed by column name. -/
abbrev Row := List (String × String)

/-- The input table as loaded by `pd.read_csv` (line 70). -/
structure Table where
  columns : List String
  rows : List Row

/-- Cell access `row["Species"]` (line 78); rows of a table that passed the column
check always carry the key. -/
def rowSpecies (r : Row) : String := (r.lookup "Species").getD ""

/-- The `for _, row in species_df.iterrows():` loop (lines 77-101),
appending one trace per row to the accumulator, in order. -/
def runRows (env : NetworkEnv) : List Row → List RowTrace → List RowTrace
  | [], results => results
  | r :: rs, results =>
    runRows env rs (results ++ [processRow env (rowSpecies r)])

/-- Function `main` (lines 65-106): the required-column check of lines 73-74
(`raise ValueError(...)`) then the row loop.  The `Except.ok` value holds
the traces whose records are written by `to_csv` at line 105; on
`Except.error` the function aborts before the loop and nothing is
written. -/
def main (env : NetworkEnv) (t : Table) : Except String (List RowTrace) :=
  if "Species" ∈ t.columns then .ok (runRows env t.rows [])
  else .error "The input file must contain a \x27Species\x27 column."

/-- The output file content: the records written by `to_csv` (line 105),
or `none` when `main` raised beforehand. -/
def writtenOutput (res : Except String (List RowTrace)) :
    Option (List ResultRecord) :=
  match res with
  | .ok trs => some (trs.map RowTrace.record)
  | .error _ => none

/-- Python truthiness of the resolver result (`if not ipni_id:`, line 83):
both `None` and the empty string are falsy. -/
def pyOptTruthy : Option String → Bool
  | none => false
  | some s => s != ""

/-- The registry response body of the mocked test scenario. -/
def mockRegistryJson : Json :=
  .obj [("results", .arr [.obj [("id", .str "urn:lsid:ipni.org:names:12345")]])]

/-- A network in which every registry query resolves to the mocked body
and every page fetch fails at network level. -/
def mockEnv : NetworkEnv :=
  ⟨fun _ => .response 200 (some mockRegistryJson), fun _ => .netError⟩

/-- A network in which every request fails at network level. -/
def deadEnv : NetworkEnv := ⟨fun _ => .netError, fun _ => .netError⟩

-- ## Helper lemmas

/-- Unrolling the driver loop: the accumulator passed to `runRows` is
extended by one trace per row, in input order. -/
theorem runRows_eq (env : NetworkEnv) (rows : List Row)
    (acc : List RowTrace) :
    runRows env rows acc =
      acc ++ rows.map (fun r => processRow env (rowSpecies r)) := by
  induction rows generalizing acc with
  | nil => simp [runRows]
  | cons r rs ih => simp [runRows, ih]

/-- Helper: `find` returns `none` on a forest none of whose elements matches. -/
theorem find_none_of_all (p : Html → Bool) (l : List Html)
    (h : ∀ e ∈ allElems l, p e = false) : findElemList p l = none := by
  revert h
  induction l using findElemList.induct p with
  | case1 => intro h; simp [findElemList]
  | case2 s hs ih =>
      intro h; rw [findElemList]; exact ih (by simpa [allElems] using h)
  | case3 t a c hs hp =>
      intro h
      have := h (Html.elem t a c) (by simp [allElems])
      simp [this] at hp
  | case4 t a c hs hp r hr ih1 =>
      intro h
      have hc : findElemList p c = none := by
        apply ih1; intro e he; exact h e (by simp [allElems, he])
      simp [hc] at hr
  | case5 t a c hs hp hr ih1 ih2 =>
      intro h
      rw [findElemList]
      have hh : findElemList p hs = none := by
        apply ih2; intro e he; exact h e (by simp [allElems, he])
      simp [hp, hr, hh]

/-- A key with a bound value is seen by `List.any`. -/
theorem any_key_of_lookup (kvs : List (String × Json)) (k : String)
    (v : Json) (h : kvs.lookup k = some v) :
    kvs.any (fun p => p.1 == k) = true := by
  induction kvs with
  | nil => simp [List.lookup] at h
  | cons p ps ih =>
    rw [List.lookup] at h
    by_cases hk : (k == p.1) = true
    · have hpk : p.1 = k := (beq_iff_eq.mp hk).symm
      simp [List.any_cons, hpk]
    · simp [hk] at h
      simp [List.any_cons, ih h]

-- ## Claims

/-- Claim C1: for every input table with a "Species" column, `main`
appends exactly one result record per input row, in input order, whatever
the per-row Resolver and Extractor outcomes are; no per-row failure aborts
the batch. -/
theorem claim1_one_record_per_row (env : NetworkEnv) (t : Table)
    (h : "Species" ∈ t.columns) :
    ∃ trs, main env t = .ok trs ∧ trs.length = t.rows.length ∧
      ∀ i : Nat, ∀ r, t.rows[i]? = some r →
        trs[i]? = some (processRow env (rowSpecies r)) := by
  refine ⟨runRows env t.rows [], by simp [main, h], ?_, ?_⟩
  · rw [runRows_eq]; simp
  · intro i r hr
    rw [runRows_eq]
    simp [List.getElem?_map, hr]

/-- Witness for C1 at a one-row table over a fully failing network. -/
theorem claim1_witness :
    ∃ trs,
      main deadEnv ⟨["Species"], [[("Species", "Quercus robur")]]⟩ =
        .ok trs ∧
      trs.length = (⟨["Species"], [[("Species", "Quercus robur")]]⟩ :
        Table).rows.length ∧
      ∀ i : Nat, ∀ r,
        (⟨["Species"], [[("Species", "Quercus robur")]]⟩ :
          Table).rows[i]? = some r →
        trs[i]? = some (processRow deadEnv (rowSpecies r)) :=
  claim1_one_record_per_row deadEnv _ (by simp)

/-- Claim C2: when the Resolver yields `absent` for a row, that row is
recorded with POWO_URL "Not Found" and Synonyms "None", and the Extractor
is not invoked. -/
theorem claim2_absent_resolver_sentinels (env : NetworkEnv) (raw : String)
    (h : fetch_ipni_id (env.registry (pyStrip raw)) = none) :
    (processRow env raw).record.powo_url = "Not Found" ∧
    (processRow env raw).record.synonyms = "None" ∧
    (processRow env raw).extractorCalled = false := by
  simp [processRow, h, notFoundTrace]

/-- Witness for C2: a registry that fails at network level resolves to
`absent`. -/
theorem claim2_witness :
    (processRow deadEnv " Quercus robur ").record.powo_url = "Not Found" ∧
    (processRow deadEnv " Quercus robur ").record.synonyms = "None" ∧
    (processRow deadEnv " Quercus robur ").extractorCalled = false :=
  claim2_absent_resolver_sentinels deadEnv " Quercus robur " (by rfl)

/-- Claim C5: a table without a "Species" column makes `main` raise the
configuration error; no output at all is written. -/
theorem claim5_missing_column_aborts (env : NetworkEnv) (t : Table)
    (h : "Species" ∉ t.columns) :
    main env t =
      .error "The input file must contain a \x27Species\x27 column." ∧
    writtenOutput (main env t) = none := by
  simp [main, h, writtenOutput]

/-- Witness for C5 at a table whose only column is "Name". -/
theorem claim5_witness :
    main deadEnv ⟨["Name"], [[("Name", "x")]]⟩ =
      .error "The input file must contain a \x27Species\x27 column." ∧
    writtenOutput (main deadEnv ⟨["Name"], [[("Name", "x")]]⟩) = none :=
  claim5_missing_column_aborts deadEnv _ (by simp)

/-- Claim C6: on the mocked registry body {"results": [{"id":
"urn:lsid:ipni.org:names:12345"}]} the Resolver returns "12345", and the
Driver builds the POWO taxon URL for that identifier. -/
theorem claim6_mock_resolution :
    fetch_ipni_id (.response 200 (some mockRegistryJson)) = some "12345" ∧
    (processRow mockEnv "Quercus robur").record.powo_url =
      "https://powo.science.kew.org/taxon/urn:lsid:ipni.org:names:12345" := by
  constructor
  · rfl
  · rfl

/-- A registry whose first search result has an id ending in a colon, so
its final colon-separated segment is the empty string, and a page that
carries a non-empty synonym list. -/
def colonIdEnv : NetworkEnv :=
  ⟨fun _ => .response 200 (some (.obj [("results",
      .arr [.obj [("id", .str "urn:lsid:ipni.org:names:")]])])),
   fun _ => .response 200
      [Html.elem "section" [("id", "synonyms")]
        [Html.elem "ul" [("class", "c-synonym-list")]
          [Html.elem "li" [] [Html.text "Quercus alba"]]]]⟩

/-- Counterexample to C3 as stated: here the Resolver succeeds (it returns
a value, not `absent`) and the Extractor would return a non-empty list for
the constructed URL, yet the recorded POWO_URL is the sentinel "Not Found"
rather than the constructed taxon URL and Synonyms is "None" rather than
the join, because the returned identifier is the empty string and the
Driver tests truthiness. -/
theorem claim3_counterexample :
    fetch_ipni_id (colonIdEnv.registry (pyStrip "Quercus alba")) =
      some "" ∧
    fetch_synonyms_from_powo (colonIdEnv.powo (urlOf "")) =
      some ["Quercus alba"] ∧
    (processRow colonIdEnv "Quercus alba").record.powo_url = "Not Found" ∧
    (processRow colonIdEnv "Quercus alba").record.powo_url ≠ urlOf "" ∧
    (processRow colonIdEnv "Quercus alba").record.synonyms = "None" := by
  refine ⟨rfl, ?_, rfl, by decide, rfl⟩
  simp [colonIdEnv, fetch_synonyms_from_powo, findElemList, findAllList,
    isSynSection, isSynUl, isLi, inClassAttr, splitWs, splitWsAux,
    childrenOf, tagFalsy, httpFails, textOfHtml, textOfList, pyStrip]

/-- Claim C3 as amended: for every row for which the Resolver returned a
non-empty identifier, POWO_URL is the constructed taxon URL, and Synonyms
is the "; "-join of the extracted list when it is non-empty and the
sentinel "None" when the Extractor returned `absent`; joining ["A", "B"]
yields the literal "A; B". -/
theorem claim3_success_fields (env : NetworkEnv) (raw s : String)
    (hres : fetch_ipni_id (env.registry (pyStrip raw)) = some s)
    (hne : s ≠ "") :
    (processRow env raw).record.powo_url = urlOf s ∧
    (fetch_synonyms_from_powo (env.powo (urlOf s)) = none →
      (processRow env raw).record.synonyms = "None") ∧
    (∀ l, fetch_synonyms_from_powo (env.powo (urlOf s)) = some l →
      l ≠ [] → (processRow env raw).record.synonyms = pyJoinSemi l) ∧
    pyJoinSemi ["A", "B"] = "A; B" := by
  refine ⟨?_, ?_, ?_, rfl⟩
  · simp [processRow, hres, hne]
  · intro hext; simp [processRow, hres, hne, hext, joinOrNone]
  · intro l hext hl
    cases l with
    | nil => exact absurd rfl hl
    | cons x rest => simp [processRow, hres, hne, hext, joinOrNone]

/-- Witness for the amended C3 at the mocked network (identifier "12345",
page fetch failing, so Synonyms is the sentinel). -/
theorem claim3_witness :
    (processRow mockEnv "Quercus robur").record.powo_url = urlOf "12345" ∧
    (fetch_synonyms_from_powo (mockEnv.powo (urlOf "12345")) = none →
      (processRow mockEnv "Quercus robur").record.synonyms = "None") ∧
    (∀ l, fetch_synonyms_from_powo (mockEnv.powo (urlOf "12345")) =
        some l → l ≠ [] →
      (processRow mockEnv "Quercus robur").record.synonyms =
        pyJoinSemi l) ∧
    pyJoinSemi ["A", "B"] = "A; B" :=
  claim3_success_fields mockEnv "Quercus robur" "12345" (by rfl)
    (by decide)

/-- Claim C4: every failure mode of the Resolver and the Extractor:
network error, raising HTTP status, undecodable JSON body, a body without
a truthy non-empty "results" list, a document without the synonyms
section, collapses to `absent` at the interface instead of propagating. -/
theorem claim4_failures_collapse_to_absent :
    (fetch_ipni_id .netError = none) ∧
    (∀ st : Nat, ∀ b, httpFails st = true →
      fetch_ipni_id (.response st b) = none) ∧
    (∀ st : Nat, fetch_ipni_id (.response st none) = none) ∧
    (∀ st : Nat, ∀ d, pyIn "results" d = .ok false →
      fetch_ipni_id (.response st (some d)) = none) ∧
    (∀ st : Nat, ∀ kvs : List (String × Json),
      kvs.lookup "results" = some (Json.arr []) →
      fetch_ipni_id (.response st (some (.obj kvs))) = none) ∧
    (fetch_synonyms_from_powo .netError = none) ∧
    (∀ st : Nat, ∀ doc, httpFails st = true →
      fetch_synonyms_from_powo (.response st doc) = none) ∧
    (∀ st : Nat, ∀ doc, (∀ e ∈ allElems doc, isSynSection e = false) →
      fetch_synonyms_from_powo (.response st doc) = none) := by
  refine ⟨rfl, ?_, ?_, ?_, ?_, rfl, ?_, ?_⟩
  · intro st b h; simp [fetch_ipni_id, h]
  · intro st; cases h : httpFails st <;> simp [fetch_ipni_id, h]
  · intro st d h
    cases hf : httpFails st with
    | true => simp [fetch_ipni_id, hf]
    | false =>
      cases ht : pyTruthy d <;>
        simp [fetch_ipni_id, hf, ipniBody, ht, h]
  · intro st kvs h
    cases hf : httpFails st with
    | true => simp [fetch_ipni_id, hf]
    | false =>
      have hkv : kvs ≠ [] := by
        intro he; rw [he] at h; simp [List.lookup] at h
      have hin : pyIn "results" (Json.obj kvs) = .ok true := by
        simp [pyIn, any_key_of_lookup kvs "results" (Json.arr []) h]
      simp [fetch_ipni_id, hf, ipniBody, pyTruthy, hkv, hin, pyGetKey, h,
        pyLen]
  · intro st doc h; simp [fetch_synonyms_from_powo, h]
  · intro st doc h
    cases hf : httpFails st <;>
      simp [fetch_synonyms_from_powo, hf, find_none_of_all _ _ h]

/-- Witness for C4: a 404 registry response and a page with no synonyms
section both collapse to `absent`. -/
theorem claim4_witness :
    fetch_ipni_id (.response 404 none) = none ∧
    fetch_synonyms_from_powo
      (.response 200 [Html.elem "div" [] [Html.text "empty page"]]) =
      none :=
  ⟨claim4_failures_collapse_to_absent.2.2.1 404,
   claim4_failures_collapse_to_absent.2.2.2.2.2.2.2 200
     [Html.elem "div" [] [Html.text "empty page"]]
     (by simp [allElems, isSynSection])⟩

/-- Claim C7: a document with no section element with id "synonyms", and
likewise one whose first such section has no descendant ul with class
"c-synonym-list", makes the Extractor return `absent`, never the empty
list. -/
theorem claim7_missing_structure_absent (st : Nat) (doc : List Html) :
    ((∀ e ∈ allElems doc, isSynSection e = false) →
      fetch_synonyms_from_powo (.response st doc) = none) ∧
    (∀ sec, findElemList isSynSection doc = some sec →
      (∀ e ∈ allElems (childrenOf sec), isSynUl e = false) →
      fetch_synonyms_from_powo (.response st doc) = none) := by
  constructor
  · intro h
    cases hf : httpFails st <;>
      simp [fetch_synonyms_from_powo, hf, find_none_of_all _ _ h]
  · intro sec hsec h
    cases hf : httpFails st with
    | true => simp [fetch_synonyms_from_powo, hf]
    | false =>
      cases hfal : tagFalsy sec <;>
        simp [fetch_synonyms_from_powo, hf, hsec, hfal,
          find_none_of_all _ _ h]

/-- Witness for C7 at a page whose synonyms section holds no list. -/
theorem claim7_witness :
    fetch_synonyms_from_powo (.response 200
      [Html.elem "section" [("id", "synonyms")]
        [Html.elem "p" [] [Html.text "nothing here"]]]) = none :=
  (claim7_missing_structure_absent 200
      [Html.elem "section" [("id", "synonyms")]
        [Html.elem "p" [] [Html.text "nothing here"]]]).2
    (Html.elem "section" [("id", "synonyms")]
      [Html.elem "p" [] [Html.text "nothing here"]])
    (by simp [findElemList, isSynSection, List.lookup])
    (by simp [allElems, childrenOf, isSynUl])

/-- Claim C8: the 2-time-unit sleep happens exactly for rows whose
resolved identifier is truthy (the rows that reach URL construction); a
row short-circuited by `continue` never sleeps, while a row whose
extraction failed still sleeps. -/
theorem claim8_sleep_iff_url (env : NetworkEnv) (raw : String) :
    ((processRow env raw).sleepUnits = 2 ↔
      pyOptTruthy (fetch_ipni_id (env.registry (pyStrip raw))) = true) ∧
    (pyOptTruthy (fetch_ipni_id (env.registry (pyStrip raw))) = false →
      (processRow env raw).sleepUnits = 0) ∧
    (∀ s, fetch_ipni_id (env.registry (pyStrip raw)) = some s → s ≠ "" →
      fetch_synonyms_from_powo (env.powo (urlOf s)) = none →
      (processRow env raw).sleepUnits = 2) := by
  cases h : fetch_ipni_id (env.registry (pyStrip raw)) with
  | none =>
    refine ⟨?_, ?_, ?_⟩ <;>
      simp [processRow, h, notFoundTrace, pyOptTruthy]
  | some s =>
    by_cases hs : s = ""
    · subst hs
      refine ⟨?_, ?_, ?_⟩ <;>
        simp [processRow, h, notFoundTrace, pyOptTruthy]
    · refine ⟨?_, ?_, ?_⟩ <;>
        simp [processRow, h, notFoundTrace, pyOptTruthy, hs]

/-- Witness for C8: with the mocked registry and a failing page fetch the
row still sleeps 2 units; with a failing registry it does not sleep. -/
theorem claim8_witness :
    (processRow mockEnv "Quercus robur").sleepUnits = 2 ∧
    (processRow deadEnv "Quercus robur").sleepUnits = 0 :=
  ⟨(claim8_sleep_iff_url mockEnv "Quercus robur").2.2 "12345" (by rfl)
     (by decide) (by rfl),
   (claim8_sleep_iff_url deadEnv "Quercus robur").2.1 (by rfl)⟩

/-- Claim C9: an empty (zero-item) extracted synonym list is recorded as
the sentinel "None", indistinguishable from the Extractor returning
`absent`, because line 97 tests the truthiness of the list. -/
theorem claim9_empty_list_sentinel (env : NetworkEnv) (raw s : String)
    (hres : fetch_ipni_id (env.registry (pyStrip raw)) = some s)
    (hne : s ≠ "")
    (hext : fetch_synonyms_from_powo (env.powo (urlOf s)) = some []) :
    (processRow env raw).record.synonyms = "None" ∧
    joinOrNone (some []) = joinOrNone none ∧
    (∀ env2 : NetworkEnv, env2.registry = env.registry →
      fetch_synonyms_from_powo (env2.powo (urlOf s)) = none →
      processRow env2 raw = processRow env raw) := by
  refine ⟨?_, rfl, ?_⟩
  · simp [processRow, hres, hne, hext, joinOrNone]
  · intro env2 hreg hnone
    simp [processRow, hreg, hres, hne, hext, hnone, joinOrNone]

/-- A network whose synonyms list container holds text but no list
items: the extractor returns the empty list, not `absent`. -/
def emptyListEnv : NetworkEnv :=
  ⟨fun _ => .response 200 (some mockRegistryJson),
   fun _ => .response 200
     [Html.elem "section" [("id", "synonyms")]
       [Html.elem "ul" [("class", "c-synonym-list")]
         [Html.text "no items recorded"]]]⟩

/-- Witness for C9 at a page whose synonym list container has no items. -/
theorem claim9_witness :
    (processRow emptyListEnv "Quercus robur").record.synonyms = "None" ∧
    joinOrNone (some []) = joinOrNone none ∧
    (∀ env2 : NetworkEnv, env2.registry = emptyListEnv.registry →
      fetch_synonyms_from_powo (env2.powo (urlOf "12345")) = none →
      processRow env2 "Quercus robur" =
        processRow emptyListEnv "Quercus robur") :=
  claim9_empty_list_sentinel emptyListEnv "Quercus robur" "12345"
    (by rfl) (by decide)
    (by simp [emptyListEnv, fetch_synonyms_from_powo, findElemList,
      findAllList, isSynSection, isSynUl, isLi, inClassAttr, splitWs,
      splitWsAux, childrenOf, tagFalsy, httpFails])

/-- Claim C10: an id field whose final colon-separated segment is empty
makes the Resolver return the empty string, and the Driver then records
the row as not found, never constructing a URL, because line 83 tests the
truthiness of the identifier rather than its presence. -/
theorem claim10_empty_identifier_not_found (env : NetworkEnv)
    (raw : String)
    (h : fetch_ipni_id (env.registry (pyStrip raw)) = some "") :
    fetch_ipni_id (.response 200 (some (.obj [("results",
      .arr [.obj [("id", .str "urn:lsid:ipni.org:names:")]])]))) =
      some "" ∧
    (processRow env raw).record = ⟨pyStrip raw, "Not Found", "None"⟩ ∧
    (processRow env raw).extractorCalled = false := by
  refine ⟨rfl, ?_, ?_⟩ <;> simp [processRow, h, notFoundTrace]

/-- Witness for C10 at the colon-terminated id registry. -/
theorem claim10_witness :
    fetch_ipni_id (.response 200 (some (.obj [("results",
      .arr [.obj [("id", .str "urn:lsid:ipni.org:names:")]])]))) =
      some "" ∧
    (processRow colonIdEnv "Quercus alba").record =
      ⟨pyStrip "Quercus alba", "Not Found", "None"⟩ ∧
    (processRow colonIdEnv "Quercus alba").extractorCalled = false :=
  claim10_empty_identifier_not_found colonIdEnv "Quercus alba" (by rfl)

/-- Sanity check: on a page with two synonym items the extractor returns
the trimmed texts in document order, and a full pipeline row records the
constructed URL and the "; "-join. -/
theorem sanity_full_pipeline_row :
    fetch_synonyms_from_powo (.response 200
      [Html.elem "section" [("id", "synonyms")]
        [Html.elem "ul" [("class", "c-synonym-list")]
          [Html.elem "li" [] [Html.text " Quercus alba "],
           Html.elem "li" [] [Html.text "Quercus bella"]]]]) =
      some ["Quercus alba", "Quercus bella"] ∧
    processRow
      ⟨fun _ => .response 200 (some mockRegistryJson),
       fun _ => .response 200
        [Html.elem "section" [("id", "synonyms")]
          [Html.elem "ul" [("class", "c-synonym-list")]
            [Html.elem "li" [] [Html.text " Quercus alba "],
             Html.elem "li" [] [Html.text "Quercus bella"]]]]⟩
      " Quercus robur " =
      ⟨⟨"Quercus robur",
        "https://powo.science.kew.org/taxon/urn:lsid:ipni.org:names:12345",
        "Quercus alba; Quercus bella"⟩, true, 2⟩ := by
  constructor
  · simp [fetch_synonyms_from_powo, findElemList, findAllList, isSynSection,
      isSynUl, isLi, inClassAttr, splitWs, splitWsAux, childrenOf, tagFalsy,
      httpFails, textOfHtml, textOfList, pyStrip]
  · simp [processRow, fetch_synonyms_from_powo, findElemList, findAllList,
      isSynSection, isSynUl, isLi, inClassAttr, splitWs, splitWsAux,
      childrenOf, tagFalsy, httpFails, textOfHtml, textOfList, pyStrip,
      urlOf, joinOrNone, pyJoinSemi, mockRegistryJson, fetch_ipni_id,
      ipniBody, pyTruthy, pyIn, pyGetKey, pyLen, pyIndex0, splitLastColon,
      pySplitColon, pySplitAux, notFoundTrace]

end PowoSyno
